import Mathlib

/-!
# Verification of `slontia::internal::shared_mutex` (fast_shared_mutex)

Shallow embedding of the reader-writer lock in `src/include/shared_mutex.h`,
the guarded-handle wrapper in `src/include/lock_wrapper.h`, and the parking
primitive in `src/include/timed_atomic_uint32/…`.  The two lock words are
32-bit unsigned counters; we model them as `ℕ` with explicit `% U32`
wraparound at every fetch-add / fetch-sub, exactly where the C++ `uint32_t`
arithmetic wraps.  Each member function of the mutex becomes a pure function
on an explicit state; the notifications it issues (`notify_one` /
`notify_all` on either word) are returned alongside the new state.
-/

namespace Slontia

/-- The modulus of `std::uint32_t` arithmetic. -/
def U32 : ℕ := 2 ^ 32

/-- The constant `k_writing_state = (1 << 31)`: the sentinel added to `holding_num_`
while an exclusive owner holds the mutex. -/
def k_writing_state : ℕ := 2 ^ 31

/-- The two atomic counters of `slontia::internal::shared_mutex`:
`writing_num_` (threads acquiring/holding exclusive ownership) and
`holding_num_` (shared holders, plus `k_writing_state` when exclusively
held). -/
structure CState where
  writing_num : ℕ
  holding_num : ℕ
deriving DecidableEq, Repr

/-- Notifications emitted by one mutex operation: `notify_all` on
`writing_num_`, and `notify_one` on `holding_num_`. -/
structure Notes where
  notify_all_writing : Bool
  notify_one_holding : Bool
deriving DecidableEq, Repr

/-- No notification issued. -/
def Notes.none : Notes := ⟨false, false⟩

/-- Embeds `increase_writing_num_`: `writing_num_.fetch_add(1, acquire)`. -/
def increase_writing_num (s : CState) : CState :=
  { s with writing_num := (s.writing_num + 1) % U32 }

/-- Embeds `decrease_writing_num_`: `writing_num_.fetch_sub(1, release)`; when the
previous value was 1 (the counter reached zero) it calls
`writing_num_.notify_all()` and returns `true`. -/
def decrease_writing_num (s : CState) : Bool × CState :=
  let prev := s.writing_num
  (decide (prev = 1), { s with writing_num := (prev + (U32 - 1)) % U32 })

/-- Embeds `try_set_writing_state_to_holding_num_`:
`holding_num_.compare_exchange_strong(0, k_writing_state, acquire)`;
returns the value of `holding_num_` observed by the CAS (0 means success). -/
def try_set_writing_state_to_holding_num (s : CState) : ℕ × CState :=
  if s.holding_num = 0 then (0, { s with holding_num := k_writing_state })
  else (s.holding_num, s)

/-- Embeds `unlock_shared`: `holding_num_.fetch_sub(1, release)`; when the previous
value was 1 and `writing_num_ > 0`, it calls `holding_num_.notify_one()`. -/
def unlock_shared (s : CState) : Notes × CState :=
  let prev := s.holding_num
  let s' : CState := { s with holding_num := (prev + (U32 - 1)) % U32 }
  (⟨false, decide (prev = 1 ∧ 0 < s.writing_num)⟩, s')

/-- Embeds `try_lock_shared_internal_`, with the second (re-read) value of
`writing_num_` made an explicit parameter `w2`: the first load reads
`s.writing_num`; if it is 0 the function increments `holding_num_`, re-reads
`writing_num_` (obtaining `w2`, which a concurrent writer may have changed)
and, when `w2 > 0`, backs out through `unlock_shared`.  The returned number
is the last value of `writing_num_` observed (0 means shared lock taken).
In a quiescent execution `w2 = s.writing_num`. -/
def try_lock_shared_internal_obs (s : CState) (w2 : ℕ) : ℕ × CState :=
  let w := s.writing_num
  if w = 0 then
    let s1 : CState := { s with holding_num := (s.holding_num + 1) % U32 }
    if 0 < w2 then (w2, (unlock_shared s1).2) else (w2, s1)
  else (w, s)

/-- Embeds `try_lock_shared` against an explicit re-read value:
`return try_lock_shared_internal_() == 0`. -/
def try_lock_shared_obs (s : CState) (w2 : ℕ) : Bool × CState :=
  let r := try_lock_shared_internal_obs s w2
  (decide (r.1 = 0), r.2)

/-- Embeds `try_lock_shared_internal_` in a quiescent (single-threaded) execution,
where the re-read of `writing_num_` returns the same value as the first
load. -/
def try_lock_shared_internal (s : CState) : ℕ × CState :=
  try_lock_shared_internal_obs s s.writing_num

/-- Embeds `try_lock_shared` in a quiescent execution. -/
def try_lock_shared (s : CState) : Bool × CState :=
  try_lock_shared_obs s s.writing_num

/-- Embeds `try_lock`: `increase_writing_num_()`, then one CAS attempt; on failure
(`try_set_writing_state_to_holding_num_() > 0`) it backs out through
`decrease_writing_num_()` and returns `false`. -/
def try_lock (s : CState) : Bool × Notes × CState :=
  let s1 := increase_writing_num s
  let (h, s2) := try_set_writing_state_to_holding_num s1
  if 0 < h then
    let (z, s3) := decrease_writing_num s2
    (false, ⟨z, false⟩, s3)
  else (true, Notes.none, s2)

/-- Embeds `lock`, restricted to the executions in which it completes without
waiting: `increase_writing_num_()`, then the CAS loop.  In a quiescent
execution the loop either succeeds at the first attempt or parks forever
(no other thread will change `holding_num_`), so a completed `lock` is
exactly a successful first CAS; `none` models a `lock` that blocks. -/
def lock (s : CState) : Option CState :=
  let s1 := increase_writing_num s
  let (h, s2) := try_set_writing_state_to_holding_num s1
  if h = 0 then some s2 else none

/-- Embeds `unlock`: `holding_num_.fetch_sub(k_writing_state, release)`, then
`decrease_writing_num_()`; when the latter did not bring `writing_num_` to
zero (and hence did not `notify_all`), `holding_num_.notify_one()`. -/
def unlock (s : CState) : Notes × CState :=
  let s1 : CState := { s with holding_num := (s.holding_num + (U32 - k_writing_state)) % U32 }
  let (z, s2) := decrease_writing_num s1
  (⟨z, !z⟩, s2)

/-- Embeds `lock_shared`, restricted to executions that complete without waiting
(quiescent: the loop either succeeds at once or parks). -/
def lock_shared (s : CState) : Option CState :=
  let r := try_lock_shared_internal s
  if r.1 = 0 then some r.2 else none

/-! ## Sequential trace model

Completed operations at quiescent points, with ghost bookkeeping: `excl`
records whether an exclusive owner exists, `shared` the number of
outstanding shared grants.  Releases are guarded so that each matches an
earlier grant.  Blocking acquisitions (`lock`, `lock_shared`) produce
`none` when they would park, i.e. they only appear in a trace when they
complete. -/

/-- The lock operations of claim C1. -/
inductive Op where
  | lock | tryLock | unlock | lockShared | tryLockShared | unlockShared
deriving DecidableEq, Repr

/-- Core counters plus ghost ownership bookkeeping. -/
structure GState where
  core : CState
  excl : Bool
  shared : ℕ
deriving DecidableEq, Repr

/-- The initial state: `writing_num_ = holding_num_ = 0`, no owners. -/
def ginit : GState := ⟨⟨0, 0⟩, false, 0⟩

/-- One completed operation at a quiescent point.  `none` means the
operation cannot complete there (a blocking acquire would park forever, or
a release has no matching grant). -/
def gstep (s : GState) : Op → Option GState
  | .lock =>
      match lock s.core with
      | some c => some ⟨c, true, s.shared⟩
      | none => none
  | .tryLock =>
      let r := try_lock s.core
      some ⟨r.2.2, s.excl || r.1, s.shared⟩
  | .unlock =>
      if s.excl then some ⟨(unlock s.core).2, false, s.shared⟩ else none
  | .lockShared =>
      match lock_shared s.core with
      | some c => some ⟨c, s.excl, s.shared + 1⟩
      | none => none
  | .tryLockShared =>
      let r := try_lock_shared s.core
      some ⟨r.2, s.excl, if r.1 then s.shared + 1 else s.shared⟩
  | .unlockShared =>
      if 0 < s.shared then some ⟨(unlock_shared s.core).2, s.excl, s.shared - 1⟩ else none

/-- Run a whole trace of completed operations. -/
def runTrace (s : GState) : List Op → Option GState
  | [] => some s
  | o :: rest =>
      match gstep s o with
      | some s' => runTrace s' rest
      | none => Option.none

/-! ## Guarded wrapper (`lock_wrapper.h` / `mutex_wrapper.h`)

`lock_wrapper<T, Mutex>` owns a value `obj_` and a mutex; a
`locked_ptr_template<k_type>` holds either null or a back-pointer to the
wrapper.  We model the back-pointer as an `Option` and the mutex state as a
`CState`. -/

/-- Embeds `lock_wrapper_base::lock_type`. -/
inductive lock_type where
  | unique_mutable | unique_const | shared_const
deriving DecidableEq, Repr

/-- Embeds the `lock_helper` unlock dispatch: `mutex.unlock_shared()` for
`shared_const`, `mutex.unlock()` for the two unique modes. -/
def lock_helper_unlock (t : lock_type) (m : CState) : Notes × CState :=
  match t with
  | .shared_const => unlock_shared m
  | .unique_mutable => unlock m
  | .unique_const => unlock m

/-- The wrapper: holds the protected object (the mutex state is passed
separately as a `CState`). -/
structure lock_wrapper (α : Type) where
  obj : α
deriving DecidableEq, Repr

/-- Embeds the destructor of `locked_ptr_template`: `if (lock_wrapper_)
lock_helper<k_type>::unlock(lock_wrapper_->mutex_);` — the destructor
releases the mode's lock iff the stored wrapper pointer is non-null. -/
def locked_ptr_dtor (t : lock_type) (wrapper : Option (lock_wrapper α))
    (m : CState) : Notes × CState :=
  match wrapper with
  | some _ => lock_helper_unlock t m
  | none => (Notes.none, m)

/-- Embeds the arrow operator: `lock_wrapper_ ? &lock_wrapper_->obj_ : nullptr`. -/
def locked_ptr_arrow (wrapper : Option (lock_wrapper α)) : Option α :=
  match wrapper with
  | some w => some w.obj
  | none => Option.none

/-- Modelled from the spec, for the refinement claim C7: "Destruction: if
non-null, release the corresponding lock mode" — calling `unlock_shared`
for the shared mode and `unlock` for the two exclusive modes, and doing
nothing when null. -/
def handle_drop_spec (t : lock_type) (wrapper : Option (lock_wrapper α))
    (m : CState) : Notes × CState :=
  if wrapper.isSome then
    if t = .shared_const then unlock_shared m else unlock m
  else (Notes.none, m)

/-! ## Parking primitive (`timed_atomic_uint32_…`)

The Windows `wait_for` (part_005, Windows section) takes the fast path for
non-positive timeouts and otherwise calls `WaitOnAddress` with
`duration_cast<milliseconds>(timeout_duration).count()`.  The Linux
`wait_for` forwards to `wait_until(value, steady_clock::now() + d)`, which
converts the absolute time point into a `timespec` and hands it to
`FUTEX_WAIT`.  Durations and time points are modelled in integer
nanoseconds. -/

/-- The Windows `wait_for`, reduced to the `dwMilliseconds` argument it
passes to `WaitOnAddress`: `none` when the non-positive fast path returns
without calling `WaitOnAddress`; otherwise
`duration_cast<std::chrono::milliseconds>` of the timeout, which for an
integral representation truncates toward zero. -/
def win_wait_for_ms (timeout_ns : ℤ) : Option ℕ :=
  if timeout_ns ≤ 0 then Option.none
  else some (timeout_ns.toNat / 1000000)

/-- The Windows `wait_for` fast path: a non-positive timeout returns
`*this == value` without parking.  Result: (returned boolean, parked?). -/
def win_wait_for_fast (current expected : ℕ) (timeout_ns : ℤ)
    (park_result : Bool) : Bool × Bool :=
  if timeout_ns ≤ 0 then (decide (current = expected), false)
  else (park_result, true)

/-- Model of the `FUTEX_WAIT` syscall, from futex(2): the `timespec`
argument is a *relative* timeout.  The kernel atomically checks the futex
word: if it differs from `expected` the call fails at once with `EAGAIN`
(no parking); otherwise the caller parks for up to the given duration and
the call returns 0 exactly when a `FUTEX_WAKE` arrives (`woken`), failing
with `ETIMEDOUT` otherwise.  Result: (syscall returned 0, parked?). -/
def futex_wait (current expected : ℕ) (timeout_rel_ns : ℤ) (woken : Bool) :
    Bool × Bool :=
  if current ≠ expected then (false, false)
  else if timeout_rel_ns ≤ 0 then (false, false)
  else (woken, true)

/-- The Linux `wait_until`: converts the absolute time point
`timeout_abs_ns` into a `timespec` and passes it to `FUTEX_WAIT` — whose
timeout is relative, so the absolute value is interpreted as a duration —
then returns `syscall(...) == 0`.  Result: (returned boolean, parked?). -/
def linux_wait_until (current expected : ℕ) (timeout_abs_ns : ℤ)
    (woken : Bool) : Bool × Bool :=
  futex_wait current expected timeout_abs_ns woken

/-- The Linux `wait_for`: `wait_until(value, steady_clock::now() +
timeout_duration)`, with `now_ns` the clock reading (nanoseconds since the
steady clock's epoch, i.e. since boot) at the call. -/
def linux_wait_for (current expected : ℕ) (now_ns dur_ns : ℤ)
    (woken : Bool) : Bool × Bool :=
  linux_wait_until current expected (now_ns + dur_ns) woken

/-! ## Reachability for claim C1 -/

/-- Bounded reachability: states reached from `ginit` by completed
operations whose outstanding shared grants never reach `k_writing_state`
(`= 2^31`), the bound the source documents: "We assume that the number of
readers acquiring the mutex concurrently should be less than (1 << 31).
Otherwise, the mutex will behave unexpectedly." -/
inductive ReachB : GState → Prop where
  | init : ReachB ginit
  | step (s : GState) (o : Op) (s' : GState) (hr : ReachB s)
      (hs : gstep s o = some s') (hb : s'.shared < k_writing_state) : ReachB s'

/-- The inductive invariant tying the counters to the ghost ownership
bookkeeping. -/
def GInv (s : GState) : Prop :=
  s.core.writing_num = (if s.excl then 1 else 0) ∧
  s.core.holding_num = s.shared + (if s.excl then k_writing_state else 0) ∧
  s.shared < k_writing_state ∧
  (s.excl = true → s.shared = 0)

/-- A trace with `2^32` outstanding shared grants: the `holding_num_`
counter wraps to 0, a writer then locks "successfully", and a single
matching shared release leaves an exclusive holder with
`holding_num_ < k_writing_state`. -/
def c1_bad_trace : List Op :=
  List.replicate U32 .tryLockShared ++ [.lock, .unlockShared]

/-- The state `c1_bad_trace` reaches. -/
def c1_bad_state : GState := ⟨⟨1, k_writing_state - 1⟩, true, U32 - 1⟩

end Slontia

namespace Slontia

/-! ## Helper lemmas -/

/-- A `uint32_t` fetch-sub without underflow: subtracting `b ≤ a` from
`a < 2^32` by adding the two's complement. -/
theorem sub_mod_u32 {a b : ℕ} (hb : b ≤ a) (ha : a < U32) :
    (a + (U32 - b)) % U32 = a - b := by
  have hbU : b ≤ U32 := le_trans hb (le_of_lt ha)
  have h : a + (U32 - b) = (a - b) + U32 := by omega
  rw [h, Nat.add_mod_right]
  exact Nat.mod_eq_of_lt (by omega)

/-- A `uint32_t` fetch-add without overflow. -/
theorem add_one_mod_u32 {a : ℕ} (ha : a + 1 < U32) : (a + 1) % U32 = a + 1 :=
  Nat.mod_eq_of_lt ha

/-- The inductive invariant holds at every state reachable under the
documented reader bound. -/
theorem reachB_ginv (s : GState) (h : ReachB s) : GInv s := by
  induction h with
  | init => simp [GInv, ginit, k_writing_state]
  | step s o s' hr hs hb ih =>
    obtain ⟨⟨w, hld⟩, e, sh⟩ := s
    obtain ⟨ih1, ih2, ih3, ih4⟩ := ih
    cases o with
    | lock =>
      by_cases hhld : hld = 0
      · simp [gstep, lock, increase_writing_num,
          try_set_writing_state_to_holding_num, hhld] at hs
        subst hs
        cases e <;> simp_all [GInv, U32, k_writing_state] <;> omega
      · simp [gstep, lock, increase_writing_num,
          try_set_writing_state_to_holding_num, hhld] at hs
    | tryLock =>
      by_cases hhld : hld = 0
      · simp [gstep, try_lock, increase_writing_num,
          try_set_writing_state_to_holding_num, decrease_writing_num, hhld] at hs
        subst hs
        cases e <;> simp_all [GInv, U32, k_writing_state] <;> omega
      · simp [gstep, try_lock, increase_writing_num,
          try_set_writing_state_to_holding_num, decrease_writing_num,
          hhld, Nat.pos_of_ne_zero hhld] at hs
        subst hs
        cases e <;> simp_all [GInv, U32, k_writing_state] <;> omega
    | unlock =>
      cases e with
      | false => simp [gstep] at hs
      | true =>
        simp [gstep, unlock, decrease_writing_num] at hs
        subst hs
        simp_all [GInv, U32, k_writing_state]
    | lockShared =>
      by_cases hw0 : w = 0
      · simp [gstep, lock_shared, try_lock_shared_internal,
          try_lock_shared_internal_obs, hw0] at hs
        subst hs
        cases e <;> simp_all [GInv, U32, k_writing_state] <;> omega
      · simp [gstep, lock_shared, try_lock_shared_internal,
          try_lock_shared_internal_obs, hw0] at hs
    | tryLockShared =>
      by_cases hw0 : w = 0
      · simp [gstep, try_lock_shared, try_lock_shared_obs,
          try_lock_shared_internal_obs, hw0] at hs
        subst hs
        cases e <;> simp_all [GInv, U32, k_writing_state] <;> omega
      · simp [gstep, try_lock_shared, try_lock_shared_obs,
          try_lock_shared_internal_obs, hw0] at hs
        subst hs
        cases e <;> simp_all [GInv, U32, k_writing_state] <;> omega
    | unlockShared =>
      by_cases hsh : 0 < sh
      · simp [gstep, unlock_shared, hsh] at hs
        subst hs
        cases e <;> simp_all [GInv, U32, k_writing_state] <;> omega
      · simp [gstep, hsh] at hs

/-! ## Claim theorems -/

/-- Running `n` successful `try_lock_shared` operations increments the
`holding_num_` word modulo `2^32` while the ghost grant count grows
unboundedly. -/
theorem runTrace_replicate_tryLockShared (n : ℕ) (hld m : ℕ) (e : Bool) :
    runTrace ⟨⟨0, hld % U32⟩, e, m⟩ (List.replicate n Op.tryLockShared) =
      some ⟨⟨0, (hld + n) % U32⟩, e, m + n⟩ := by
  induction n generalizing hld m with
  | zero => simp [runTrace]
  | succ k ihk =>
      rw [List.replicate_succ]
      have hstep : gstep ⟨⟨0, hld % U32⟩, e, m⟩ Op.tryLockShared =
          some ⟨⟨0, (hld + 1) % U32⟩, e, m + 1⟩ := by
        simp [gstep, try_lock_shared, try_lock_shared_obs,
          try_lock_shared_internal_obs, Nat.mod_add_mod]
      rw [runTrace, hstep]
      have h := ihk (hld + 1) (m + 1)
      rw [show hld + 1 + k = hld + (k + 1) from by omega,
          show m + 1 + k = m + (k + 1) from by omega] at h
      exact h

/-- Traces compose. -/
theorem runTrace_append (s : GState) (l1 l2 : List Op) :
    runTrace s (l1 ++ l2) = (runTrace s l1).bind (fun t => runTrace t l2) := by
  induction l1 generalizing s with
  | nil => simp [runTrace]
  | cons o rest ihr =>
      rcases hgs : gstep s o with _ | s'
      · simp [runTrace, hgs]
      · simp [runTrace, hgs, ihr]

/-- C1 fails as stated: after `2^32` completed `try_lock_shared` grants the
`holding_num_` word wraps to 0, a `lock` then completes, and one matching
`unlock_shared` leaves a quiescent state with an exclusive holder yet
`holding_num_ < k_writing_state` — violating I1 (and I2).  Every release in
the trace matches an earlier grant. -/
theorem c1_unbounded_counterexample :
    runTrace ginit c1_bad_trace = some c1_bad_state ∧
    c1_bad_state.excl = true ∧
    c1_bad_state.core.holding_num < k_writing_state := by
  refine ⟨?_, rfl, by decide⟩
  rw [c1_bad_trace, runTrace_append]
  have h1 := runTrace_replicate_tryLockShared U32 0 0 false
  rw [show (⟨⟨0, (0 : ℕ) % U32⟩, false, 0⟩ : GState) = ginit from by
        simp [ginit]] at h1
  rw [h1]
  have h2 : (0 + U32) % U32 = 0 := by simp
  rw [h2]
  decide

/-- C1 (amended): at every quiescent state reachable by completed
operations whose outstanding shared grants always stay below
`k_writing_state = 2^31` (the reader bound the source documents), the three
invariants hold: `holding_num_ < k_writing_state` implies no exclusive
holder; an exclusive holder forces `holding_num_ = k_writing_state` and
`writing_num_ ≥ 1`; and `writing_num_ = 0` iff no thread intends or holds
exclusive ownership (at a quiescent point: iff no exclusive holder). -/
theorem c1_quiescent_invariants (s : GState) (h : ReachB s) :
    (s.core.holding_num < k_writing_state → s.excl = false) ∧
    (s.excl = true → s.core.holding_num = k_writing_state ∧ 1 ≤ s.core.writing_num) ∧
    (s.core.writing_num = 0 ↔ s.excl = false) := by
  obtain ⟨i1, i2, i3, i4⟩ := reachB_ginv s h
  cases he : s.excl <;> simp_all <;> omega

/-- Witness for the amended C1 at the initial state. -/
theorem c1_quiescent_invariants_witness :
    ReachB ginit ∧
    ((ginit.core.holding_num < k_writing_state → ginit.excl = false) ∧
      (ginit.excl = true →
          ginit.core.holding_num = k_writing_state ∧ 1 ≤ ginit.core.writing_num) ∧
      (ginit.core.writing_num = 0 ↔ ginit.excl = false)) :=
  ⟨ReachB.init, c1_quiescent_invariants ginit ReachB.init⟩

/-- C2: `try_lock_shared` returns true iff `writing_num_` is observed to be
0 both at the initial load and at the re-read after the `holding_num_`
increment; it increments `holding_num_` only when the initial load is 0;
and when the re-read finds a positive value it backs out through the
shared-release path (`unlock_shared`) before returning false. -/
theorem c2_try_lock_shared (s : CState) (w2 : ℕ) :
    ((try_lock_shared_obs s w2).1 = true ↔ (s.writing_num = 0 ∧ w2 = 0)) ∧
    (¬ s.writing_num = 0 → (try_lock_shared_obs s w2).2 = s) ∧
    (s.writing_num = 0 → 0 < w2 →
        (try_lock_shared_obs s w2).1 = false ∧
        (try_lock_shared_obs s w2).2 =
          (unlock_shared { s with holding_num := (s.holding_num + 1) % U32 }).2) ∧
    (s.writing_num = 0 → w2 = 0 →
        (try_lock_shared_obs s w2).2 =
          { s with holding_num := (s.holding_num + 1) % U32 }) := by
  by_cases hw : s.writing_num = 0
  · by_cases h2 : 0 < w2
    · simp [try_lock_shared_obs, try_lock_shared_internal_obs, hw, h2]
      omega
    · simp [try_lock_shared_obs, try_lock_shared_internal_obs, hw, h2]
  · simp [try_lock_shared_obs, try_lock_shared_internal_obs, hw]

/-- Witness for C2 at `writing_num_ = 0`, `holding_num_ = 3`, re-read 0. -/
theorem c2_try_lock_shared_witness :
    ((try_lock_shared_obs ⟨0, 3⟩ 0).1 = true ↔
        ((CState.mk 0 3).writing_num = 0 ∧ (0 : ℕ) = 0)) ∧
    (¬ (CState.mk 0 3).writing_num = 0 → (try_lock_shared_obs ⟨0, 3⟩ 0).2 = ⟨0, 3⟩) ∧
    ((CState.mk 0 3).writing_num = 0 → (0 : ℕ) < 0 →
        (try_lock_shared_obs ⟨0, 3⟩ 0).1 = false ∧
        (try_lock_shared_obs ⟨0, 3⟩ 0).2 =
          (unlock_shared { CState.mk 0 3 with
            holding_num := ((CState.mk 0 3).holding_num + 1) % U32 }).2) ∧
    ((CState.mk 0 3).writing_num = 0 → (0 : ℕ) = 0 →
        (try_lock_shared_obs ⟨0, 3⟩ 0).2 =
          { CState.mk 0 3 with
            holding_num := ((CState.mk 0 3).holding_num + 1) % U32 }) :=
  c2_try_lock_shared ⟨0, 3⟩ 0

/-- C3: `try_lock` first increments `writing_num_`; it returns true exactly
when the CAS of `holding_num_` from 0 to `k_writing_state` succeeds; on CAS
failure it decrements `writing_num_` back, performs `notify_all` on
`writing_num_` iff that decrement brought the counter to zero, and returns
false (leaving the state unchanged). -/
theorem c3_try_lock (s : CState) (hw : s.writing_num + 1 < U32) :
    ((try_lock s).1 = true ↔ s.holding_num = 0) ∧
    (s.holding_num = 0 →
        (try_lock s).2.2 = ⟨s.writing_num + 1, k_writing_state⟩ ∧
        (try_lock s).2.1 = Notes.none) ∧
    (¬ s.holding_num = 0 →
        (try_lock s).1 = false ∧
        (try_lock s).2.2 = s ∧
        ((try_lock s).2.1.notify_all_writing = true ↔ s.writing_num = 0) ∧
        (try_lock s).2.1.notify_one_holding = false) := by
  obtain ⟨w, hld⟩ := s
  simp only [CState.mk.injEq] at *
  by_cases hh : hld = 0
  · simp [try_lock, increase_writing_num, try_set_writing_state_to_holding_num,
      decrease_writing_num, Notes.none, hh, Nat.mod_eq_of_lt hw]
  · have hmod : (w + 1) % U32 = w + 1 := Nat.mod_eq_of_lt hw
    have hsub : (w + 1 + (U32 - 1)) % U32 = w := by
      have := @sub_mod_u32 (w + 1) 1 (by omega) hw
      simpa using this
    simp [try_lock, increase_writing_num, try_set_writing_state_to_holding_num,
      decrease_writing_num, Notes.none, hh, hmod, hsub, Nat.pos_of_ne_zero hh]

/-- Witness for C3 at `writing_num_ = 0`, `holding_num_ = 5` (CAS failure
path). -/
theorem c3_try_lock_witness :
    (CState.mk 0 5).writing_num + 1 < U32 ∧
    (((try_lock ⟨0, 5⟩).1 = true ↔ (CState.mk 0 5).holding_num = 0) ∧
      ((CState.mk 0 5).holding_num = 0 →
          (try_lock ⟨0, 5⟩).2.2 = ⟨(CState.mk 0 5).writing_num + 1, k_writing_state⟩ ∧
          (try_lock ⟨0, 5⟩).2.1 = Notes.none) ∧
      (¬ (CState.mk 0 5).holding_num = 0 →
          (try_lock ⟨0, 5⟩).1 = false ∧
          (try_lock ⟨0, 5⟩).2.2 = ⟨0, 5⟩ ∧
          ((try_lock ⟨0, 5⟩).2.1.notify_all_writing = true ↔
              (CState.mk 0 5).writing_num = 0) ∧
          (try_lock ⟨0, 5⟩).2.1.notify_one_holding = false)) :=
  ⟨by decide, c3_try_lock ⟨0, 5⟩ (by decide)⟩

/-- C4: writer priority — whenever `writing_num_ > 0` at the initial load,
`try_lock_shared` returns false (both in the general two-load model and in
the quiescent model), so no shared acquisition succeeds while any writer
demands or holds exclusive ownership. -/
theorem c4_writer_priority (s : CState) (w2 : ℕ) (h : 0 < s.writing_num) :
    (try_lock_shared_obs s w2).1 = false ∧ (try_lock_shared s).1 = false := by
  have hw : ¬ s.writing_num = 0 := by omega
  constructor
  · simp [try_lock_shared_obs, try_lock_shared_internal_obs, hw]
  · simp [try_lock_shared, try_lock_shared_obs, try_lock_shared_internal_obs, hw]

/-- Witness for C4 at `writing_num_ = 1`, `holding_num_ = 0`. -/
theorem c4_writer_priority_witness :
    0 < (CState.mk 1 0).writing_num ∧
    ((try_lock_shared_obs ⟨1, 0⟩ 0).1 = false ∧ (try_lock_shared ⟨1, 0⟩).1 = false) :=
  ⟨by decide, c4_writer_priority ⟨1, 0⟩ 0 (by decide)⟩

/-- C5: `unlock` subtracts `k_writing_state` from `holding_num_` and
decrements `writing_num_` by 1; it performs `notify_all` on `writing_num_`
iff that decrement brought the counter to zero, and otherwise performs
`notify_one` on `holding_num_`. -/
theorem c5_unlock (s : CState) (hw1 : 1 ≤ s.writing_num) (hw2 : s.writing_num < U32)
    (hh1 : k_writing_state ≤ s.holding_num) (hh2 : s.holding_num < U32) :
    (unlock s).2 = ⟨s.writing_num - 1, s.holding_num - k_writing_state⟩ ∧
    ((unlock s).1.notify_all_writing = true ↔ s.writing_num = 1) ∧
    ((unlock s).1.notify_one_holding = true ↔ ¬ s.writing_num = 1) := by
  obtain ⟨w, hld⟩ := s
  simp only at *
  have h1 : (hld + (U32 - k_writing_state)) % U32 = hld - k_writing_state :=
    sub_mod_u32 hh1 hh2
  have h2 : (w + (U32 - 1)) % U32 = w - 1 := sub_mod_u32 hw1 hw2
  simp [unlock, decrease_writing_num, h1, h2]

/-- Witness for C5 at `writing_num_ = 1`, `holding_num_ = k_writing_state`. -/
theorem c5_unlock_witness :
    1 ≤ (CState.mk 1 k_writing_state).writing_num ∧
    (CState.mk 1 k_writing_state).writing_num < U32 ∧
    k_writing_state ≤ (CState.mk 1 k_writing_state).holding_num ∧
    (CState.mk 1 k_writing_state).holding_num < U32 ∧
    ((unlock ⟨1, k_writing_state⟩).2 =
        ⟨(CState.mk 1 k_writing_state).writing_num - 1,
          (CState.mk 1 k_writing_state).holding_num - k_writing_state⟩ ∧
      ((unlock ⟨1, k_writing_state⟩).1.notify_all_writing = true ↔
          (CState.mk 1 k_writing_state).writing_num = 1) ∧
      ((unlock ⟨1, k_writing_state⟩).1.notify_one_holding = true ↔
          ¬ (CState.mk 1 k_writing_state).writing_num = 1)) :=
  ⟨by decide, by decide, by decide, by decide,
    c5_unlock ⟨1, k_writing_state⟩ (by decide) (by decide) (by decide) (by decide)⟩

/-- C6: from the initial free state, a completed `lock` followed by
`unlock` returns the counters exactly to the initial state. -/
theorem c6_lock_unlock_roundtrip :
    runTrace ginit [Op.lock, Op.unlock] = some ginit := by decide

/-- C7: destroying a non-null handle is observationally equivalent to
calling `unlock` on the wrapper's lock for the two exclusive modes and
`unlock_shared` for the shared mode (the spec-side `handle_drop_spec`),
and destroying a null handle performs no release at all. -/
theorem c7_handle_drop {α : Type} (t : lock_type)
    (wrapper : Option (lock_wrapper α)) (m : CState) :
    locked_ptr_dtor t wrapper m = handle_drop_spec t wrapper m ∧
    locked_ptr_dtor t (Option.none : Option (lock_wrapper α)) m = (Notes.none, m) := by
  cases wrapper <;> cases t <;> exact ⟨rfl, rfl⟩

/-- Witness for C7 at the shared mode, a non-null handle, and
`writing_num_ = 1`, `holding_num_ = 1`. -/
theorem c7_handle_drop_witness :
    locked_ptr_dtor .shared_const (some (lock_wrapper.mk (7 : ℕ))) ⟨1, 1⟩ =
      handle_drop_spec .shared_const (some (lock_wrapper.mk (7 : ℕ))) ⟨1, 1⟩ ∧
    locked_ptr_dtor .shared_const (Option.none : Option (lock_wrapper ℕ)) ⟨1, 1⟩ =
      (Notes.none, ⟨1, 1⟩) :=
  c7_handle_drop .shared_const (some ⟨7⟩) ⟨1, 1⟩

/-- C8 fails as stated: a positive sub-millisecond timeout (500 µs) is
handed to `WaitOnAddress` as 0 ms, not 1 ms — `duration_cast` truncates
toward zero. -/
theorem c8_submilli_counterexample :
    win_wait_for_ms 500000 = some 0 ∧ ¬ win_wait_for_ms 500000 = some 1 := by decide

/-- C8 (amended): every positive sub-millisecond timeout passed to the
Windows `wait_for` is truncated to 0 ms, so `WaitOnAddress` is called with
a zero timeout and the wait may return failure before the requested
instant. -/
theorem c8_submilli_truncation (ns : ℤ) (h1 : 0 < ns) (h2 : ns < 1000000) :
    win_wait_for_ms ns = some 0 := by
  unfold win_wait_for_ms
  rw [if_neg (by omega)]
  exact congrArg some (Nat.div_eq_of_lt (by omega))

/-- Witness for the amended C8 at 999 999 ns. -/
theorem c8_submilli_truncation_witness :
    (0 : ℤ) < 999999 ∧ (999999 : ℤ) < 1000000 ∧ win_wait_for_ms 999999 = some 0 :=
  ⟨by decide, by decide, c8_submilli_truncation 999999 (by decide) (by decide)⟩

/-- C9: evaluating the two `wait_for` implementations at a zero duration
with `load() == expected` (clock at 1 s past the steady epoch, no
concurrent wake).  The Windows primitive takes the documented fast path
(returns true, never parks); the Linux primitive has no such fast path —
it issues `FUTEX_WAIT`, whose relative-timeout `timespec` receives the
absolute time point, so the thread parks and the call returns false. -/
theorem c9_zero_duration_eval :
    linux_wait_for 5 5 1000000000 0 false = (false, true) ∧
    win_wait_for_fast 5 5 0 false = (true, false) := by decide

/-- C10: `operator->` on a null handle returns `nullptr` instead of
dereferencing the absent wrapper, and on a non-null handle returns a
pointer to the wrapped object. -/
theorem c10_arrow_null_guard {α : Type} (w : lock_wrapper α) :
    locked_ptr_arrow (some w) = some w.obj ∧
    locked_ptr_arrow (Option.none : Option (lock_wrapper α)) = Option.none :=
  ⟨rfl, rfl⟩

/-- Witness for C10 at a wrapper holding `42`. -/
theorem c10_arrow_null_guard_witness :
    locked_ptr_arrow (some (lock_wrapper.mk (42 : ℕ))) =
      some (lock_wrapper.mk (42 : ℕ)).obj ∧
    locked_ptr_arrow (Option.none : Option (lock_wrapper ℕ)) = Option.none :=
  c10_arrow_null_guard ⟨42⟩

end Slontia
